import Mathlib

/-!
# YaRISC emulator — shallow embedding and verification

A shallow embedding of the core of the YaRISC 16-bit processor emulator:
the instruction bit layout (`src/yarisc/arch/instructions.hpp`), the
assembler and disassembler (`src/yarisc/arch/assembly.hpp/.cpp`), and the
fetch–decode–execute core with its strictness audit
(`src/yarisc/arch/detail/execution.hpp`).

Machine words (`word_t`, `address_t`, both `uint16_t`) are modelled as
`Nat` with an explicit `% 65536` wherever the C++ code performs a
truncating cast; `double_word_t` arithmetic cannot overflow 32 bits in the
modelled code, so it is plain `Nat` addition.  Memory is the byte buffer
of `arch::memory`: a size together with a byte-valued function, with the
little-endian word packing of `detail/endianness.hpp`.
-/

namespace YaRISC

/-! ## Bit-field constants (src/yarisc/arch/instructions.hpp) -/

def opcode_mask : Nat := 0x3f

def operand_mask : Nat := 0xffc0

def operand_op0_mask : Nat := 0x01c0

def operand_op1_mask : Nat := 0x0e00

def operand_op2_mask : Nat := 0x7000

def operand_sel_mask : Nat := 0x8000

def operand_loc_mask : Nat := 0x4000

def operand_as_mask : Nat := 0x2000

def operand_st_mask : Nat := 0x1e00

def operand_imm_mask : Nat := operand_loc_mask ||| operand_sel_mask

def operand_imm_unassigned_mask : Nat := 0x1000

def operand_imm_invalid_mask : Nat := operand_imm_mask ||| operand_imm_unassigned_mask

def operand_op0_offset : Nat := 6

def operand_op1_offset : Nat := 9

def operand_op2_offset : Nat := 12

def operand_st_offset : Nat := 9

def operand_as_offset : Nat := 13

def operand_addr_mask : Nat := 0x7fc0

def operand_addr_loc_mask : Nat := 0x8000

def operand_cond_flag_mask : Nat := 0x00c0

def operand_cond_flag_carry_mask : Nat := 0x0040

def operand_cond_flag_zero_mask : Nat := 0x0080

def operand_cond_unassigned_mask : Nat := 0x0100

def operand_cond_invalid_mask : Nat := operand_cond_unassigned_mask

def operand_cond_addr_mask : Nat := 0x3e00

def operand_cond_neg_mask : Nat := 0x4000

def operand_addr_offset : Nat := 6

/-- `operand_addr_word_offset = operand_addr_offset - 1`: short jump
addresses are word addresses, decoding shifts one bit less. -/
def operand_addr_word_offset : Nat := operand_addr_offset - 1

def operand_cond_flag_offset : Nat := 6

def operand_cond_addr_offset : Nat := 9

def operand_cond_addr_word_offset : Nat := operand_cond_addr_offset - 1

/-! ## Status register (src/yarisc/arch/registers.hpp) -/

def carry_flag : Nat := 1

def zero_flag : Nat := 2

/-! ## Instruction formats and the instruction table
(src/yarisc/arch/instructions.hpp `optype`,
src/yarisc/arch/machine_profile.hpp `instruction_table`) -/

inductive Optype where
  | basic
  | op0
  | op0_op1
  | op0_op1_op2
  | jump
  | cond_jump
deriving DecidableEq

/-- One entry of `detail::instruction_table`: mnemonic, minimum feature
level (`feature_level_t` values: none = 0, min = 10, v1 = 100) and
instruction format. -/
structure InstructionDescriptor where
  mnemonic : String
  level : Nat
  type : Optype
deriving DecidableEq

def feature_level_min : Nat := 10

def feature_level_v1 : Nat := 100

def feature_level_latest : Nat := feature_level_v1

/-- `detail::instruction_table`, indexed by the 6-bit opcode value.
Slots not listed in the source hold the default-constructed descriptor
(empty mnemonic, `feature_level::none` = 0, `optype::basic`). -/
def instruction_table (code : Nat) : InstructionDescriptor :=
  if code = 0x01 then ⟨"MOV", feature_level_min, .op0_op1⟩
  else if code = 0x02 then ⟨"LDR", feature_level_min, .op0_op1⟩
  else if code = 0x04 then ⟨"STR", feature_level_min, .op0_op1⟩
  else if code = 0x10 then ⟨"ADD", feature_level_min, .op0_op1_op2⟩
  else if code = 0x11 then ⟨"ADC", feature_level_min, .op0_op1_op2⟩
  else if code = 0x2a then ⟨"JMP", feature_level_v1, .jump⟩
  else if code = 0x2c then ⟨"J", feature_level_min, .cond_jump⟩
  else if code = 0x3e then ⟨"NOP", feature_level_v1, .basic⟩
  else if code = 0x3f then ⟨"HLT", feature_level_min, .basic⟩
  else ⟨"", 0, .basic⟩

/-- `instruction_supported_v<Code, Level>`: the opcode's level is at most
the profile's level. -/
def instruction_supported (code level : Nat) : Bool :=
  (instruction_table code).level ≤ level

/-! ## Hex formatting (src/yarisc/arch/detail/hex_word.hpp `output_hex`)

`output_hex(os, value, width)` prints `value` in lowercase hex, padded
with leading zeros to `width` digits (never truncating); the default
width for a 16-bit value is 4 digits. -/

def hexDigitChar (n : Nat) : Char :=
  if n < 10 then Char.ofNat (48 + n) else Char.ofNat (87 + n)

def hexDigitsAux : Nat → Nat → List Char
  | 0, _ => []
  | fuel + 1, n =>
    if n < 16 then [hexDigitChar n]
    else hexDigitsAux fuel (n / 16) ++ [hexDigitChar (n % 16)]

/-- Lowercase hex digits of `n` (most significant first); the fuel of 8
covers every value below `16^8`, far beyond the 16/32-bit values printed
by the emulator. -/
def hexDigits (n : Nat) : List Char :=
  hexDigitsAux 8 n

/-- `detail::output_hex`: zero-padded lowercase hex. -/
def output_hex (n width : Nat) : String :=
  ⟨List.replicate (width - (hexDigits n).length) '0' ++ hexDigits n⟩

/-! ## Assembler (src/yarisc/arch/assembly.hpp, namespace `detail`)

Register addresses (`assembly::regaddr`) are the values 0..7; jump
conditions (`assembly::jump_condition`) are the words formed from
`operand_cond_flag_*` and `operand_cond_neg_mask`. -/

def jump_condition_jc : Nat := operand_cond_flag_carry_mask

def jump_condition_jz : Nat := operand_cond_flag_zero_mask

def jump_condition_jnc : Nat := operand_cond_flag_carry_mask ||| operand_cond_neg_mask

def jump_condition_jnz : Nat := operand_cond_flag_zero_mask ||| operand_cond_neg_mask

def make_op0 (addr : Nat) : Nat :=
  (addr <<< operand_op0_offset) &&& operand_op0_mask

def make_op1 (addr : Nat) : Nat :=
  (addr <<< operand_op1_offset) &&& operand_op1_mask

def make_op2 (addr : Nat) : Nat :=
  (addr <<< operand_op2_offset) &&& operand_op2_mask

/-- `detail::make_immediate(short_immediate)`. -/
def make_immediate_short (imm : Nat) : Nat :=
  (imm <<< operand_st_offset) &&& operand_st_mask

/-- `detail::make_immediate(short_jump_address)`.  Note that the source
shifts by `operand_addr_offset` (6), not `operand_addr_word_offset`. -/
def make_immediate_jump (address : Nat) : Nat :=
  (address <<< operand_addr_offset) &&& operand_addr_mask

/-- `detail::make_immediate(short_cond_jump_address)`.  Note that the
source shifts by `operand_cond_addr_offset` (9), not
`operand_cond_addr_word_offset`. -/
def make_immediate_cond_jump (address : Nat) : Nat :=
  (address <<< operand_cond_addr_offset) &&& operand_cond_addr_mask

def make_condition (cond : Nat) : Nat :=
  cond &&& (operand_cond_neg_mask ||| operand_cond_flag_mask)

/-- `assemble<Code>()` for a basic instruction. -/
def assemble_basic (code : Nat) : Nat :=
  code

/-- `assemble<Code>(op0)` (one register operand). -/
def assemble_op0 (code op0 : Nat) : Nat :=
  code ||| make_op0 op0

/-- `assemble<Code>(op0, op1)` with a register second operand. -/
def assemble_two_reg (code op0 op1 : Nat) : Nat :=
  code ||| (make_op0 op0 ||| make_op1 op1)

/-- `assemble<Code>(op0, immediate)`: the constant is in the next word. -/
def assemble_two_imm (code op0 : Nat) : Nat :=
  code ||| (make_op0 op0 ||| operand_imm_mask)

/-- `assemble<Code>(op0, short_immediate)`. -/
def assemble_two_short (code op0 imm : Nat) : Nat :=
  code ||| (make_op0 op0 ||| make_immediate_short imm ||| operand_sel_mask)

/-- `assemble<Code>(op0, op1, op2)` with register operands. -/
def assemble_three_reg (code op0 op1 op2 : Nat) : Nat :=
  code ||| (make_op0 op0 ||| make_op1 op1 ||| make_op2 op2)

/-- `assemble<Code>(op0, immediate, op2)`. -/
def assemble_three_imm_reg (code op0 op2 : Nat) : Nat :=
  code ||| (make_op0 op0 ||| make_op1 op2 ||| operand_imm_mask)

/-- `assemble<Code>(op0, op1, immediate)`. -/
def assemble_three_reg_imm (code op0 op1 : Nat) : Nat :=
  code ||| (make_op0 op0 ||| make_op1 op1 ||| operand_as_mask ||| operand_imm_mask)

/-- `assemble<Code>(op0, short_immediate, accumulator)`. -/
def assemble_three_short_acc (code op0 imm : Nat) : Nat :=
  code ||| (make_op0 op0 ||| make_immediate_short imm ||| operand_sel_mask)

/-- `assemble<Code>(op0, accumulator, short_immediate)`. -/
def assemble_three_acc_short (code op0 imm : Nat) : Nat :=
  code ||| (make_op0 op0 ||| make_immediate_short imm ||| operand_as_mask ||| operand_sel_mask)

/-- `assemble<Code>(immediate)` for a jump. -/
def assemble_jump_imm (code : Nat) : Nat :=
  code ||| operand_addr_loc_mask

/-- `assemble<Code>(short_jump_address)`. -/
def assemble_jump_short (code address : Nat) : Nat :=
  code ||| make_immediate_jump address

/-- `assemble<Code>(cond, immediate)` for a conditional jump. -/
def assemble_cond_jump_imm (code cond : Nat) : Nat :=
  code ||| (make_condition cond ||| operand_addr_loc_mask)

/-- `assemble<Code>(cond, short_cond_jump_address)`. -/
def assemble_cond_jump_short (code cond address : Nat) : Nat :=
  code ||| (make_condition cond ||| make_immediate_cond_jump address)

/-! ## Checked immediates (src/yarisc/arch/assembly.hpp
`assembly::checked_immediate`) -/

/-- Modelled from the spec: `detail::sign_extend`, used by
`assembly::checked_immediate<Mask, SignMask>::check`, is declared nowhere
in the sources at hand; only its use site in `assembly.hpp` is present.
The spec (§4.1) says short-immediate values "must sign-extend exactly
from their declared sign bit", i.e. this is two's-complement sign
extension of a 16-bit word from the single bit `signMask`: when the sign
bit is set, all word bits above it are set as well, otherwise the value
is returned unchanged. -/
def sign_extend (v signMask : Nat) : Nat :=
  if v &&& signMask ≠ 0 then v ||| (65536 - 2 * signMask) else v

/-- `checked_immediate<Mask, SignMask>::check`. -/
def checked_immediate_ok (mask signMask v : Nat) : Bool :=
  sign_extend (v &&& (mask ||| signMask)) signMask == v

/-- The message built by `detail::throw_invalid_immediate`. -/
def invalid_immediate_message (imm mask : Nat) : String :=
  "short immediate constant " ++ output_hex imm 4 ++ "too large (mask: " ++ output_hex mask 4 ++ ")"

/-- The `checked_immediate` constructor: accepts the value or throws
`std::out_of_range` (modelled as `Except.error`). -/
def checked_immediate_make (mask signMask v : Nat) : Except String Nat :=
  if checked_immediate_ok mask signMask v then .ok v
  else .error (invalid_immediate_message v (mask ||| signMask))

/-- `assembly::short_immediate = checked_immediate<0x7, 0x8>`. -/
def short_immediate_ok (v : Nat) : Bool :=
  checked_immediate_ok 0x7 0x8 v

/-- `assembly::short_jump_address = checked_immediate<0x01fe, 0x0200>`. -/
def short_jump_address_ok (v : Nat) : Bool :=
  checked_immediate_ok 0x01fe 0x0200 v

/-- `assembly::short_cond_jump_address = checked_immediate<0x1e, 0x20>`. -/
def short_cond_jump_address_ok (v : Nat) : Bool :=
  checked_immediate_ok 0x1e 0x20 v

/-! ## Disassembler (src/yarisc/arch/assembly.cpp)

`disassemble(instr, arg, level)` returns the number of words consumed
(0 on error) and the text. -/

structure Disassembly where
  words : Nat
  text : String
deriving DecidableEq

def mnemonic_sep : String := " "

def argument_sep : String := ", "

def reg_names : List String :=
  ["r0", "r1", "r2", "r3", "r4", "r5", "sp", "ip"]

def invalid_level_error (level : Nat) : Disassembly :=
  ⟨0, "Invalid feature level " ++ toString level⟩

def invalid_opcode_error (instr : Nat) : Disassembly :=
  ⟨0, "Invalid instruction 0x" ++ output_hex instr 4⟩

def invalid_bits_error (instr : Nat) : Disassembly :=
  ⟨0, "Invalid non-zero bits in instruction 0x" ++ output_hex instr 4⟩

def check_no_operands (instr : Nat) : Bool :=
  instr &&& operand_mask == 0

def check_one_operand (instr : Nat) : Bool :=
  instr &&& (operand_op1_mask ||| operand_op2_mask) == 0

def check_two_operands (instr : Nat) : Bool :=
  if instr &&& operand_sel_mask ≠ 0 then
    (instr &&& operand_as_mask == 0) &&
      !((instr &&& operand_loc_mask != 0) && (instr &&& operand_st_mask != 0))
  else
    instr &&& operand_op2_mask == 0

def check_three_operands (instr : Nat) : Bool :=
  !(instr &&& operand_imm_invalid_mask == operand_imm_invalid_mask)

def check_jump (instr : Nat) : Bool :=
  !((instr &&& operand_addr_loc_mask != 0) && (instr &&& operand_addr_mask != 0))

def check_cond_jump (instr : Nat) : Bool :=
  !((instr &&& operand_addr_loc_mask != 0) && (instr &&& operand_cond_addr_mask != 0)) &&
    !(instr &&& operand_cond_invalid_mask == operand_cond_invalid_mask)

def first_reg_operand_name (instr : Nat) : String :=
  reg_names.getD ((instr &&& operand_op0_mask) >>> operand_op0_offset) ""

def second_reg_operand_name (instr : Nat) : String :=
  reg_names.getD ((instr &&& operand_op1_mask) >>> operand_op1_offset) ""

def third_reg_operand_name (instr : Nat) : String :=
  reg_names.getD ((instr &&& operand_op2_mask) >>> operand_op2_offset) ""

/-- `output_immediate_impl`: decimal below 10, otherwise hex with a width
of 1, 2 or 4 digits depending on the value. -/
def output_immediate_impl (imm : Nat) : String :=
  if imm < 10 then ⟨[Char.ofNat (48 + imm)]⟩
  else "0x" ++ output_hex imm (if imm < 16 then 1 else if imm < 256 then 2 else 4)

def output_short_immediate (instr : Nat) : String :=
  output_immediate_impl ((instr &&& operand_st_mask) >>> operand_st_offset)

def output_address_impl (address : Nat) : String :=
  "0x" ++ output_hex address 4

def output_short_jump_address (instr : Nat) : String :=
  output_address_impl ((instr &&& operand_addr_mask) >>> (operand_addr_offset - 1))

def output_short_cond_jump_address (instr : Nat) : String :=
  output_address_impl ((instr &&& operand_cond_addr_mask) >>> (operand_cond_addr_offset - 1))

def convert_one_operand (mnemonic : String) (instr : Nat) : Disassembly :=
  ⟨1, mnemonic ++ mnemonic_sep ++ first_reg_operand_name instr⟩

def convert_two_operands (mnemonic : String) (instr arg : Nat) : Disassembly :=
  let head := mnemonic ++ mnemonic_sep ++ first_reg_operand_name instr ++ argument_sep
  if instr &&& operand_sel_mask ≠ 0 then
    if instr &&& operand_loc_mask ≠ 0 then ⟨2, head ++ output_immediate_impl arg⟩
    else ⟨1, head ++ output_short_immediate instr⟩
  else ⟨1, head ++ second_reg_operand_name instr⟩

def convert_three_operands (mnemonic : String) (instr arg : Nat) : Disassembly :=
  let head := mnemonic ++ mnemonic_sep ++ first_reg_operand_name instr ++ argument_sep
  if instr &&& operand_sel_mask ≠ 0 then
    let words := if instr &&& operand_loc_mask ≠ 0 then 2 else 1
    let operand0 :=
      if instr &&& operand_loc_mask ≠ 0 then output_immediate_impl arg
      else output_short_immediate instr
    let operand1 :=
      if instr &&& operand_loc_mask ≠ 0 then second_reg_operand_name instr
      else first_reg_operand_name instr
    let as := (instr &&& operand_as_mask) >>> operand_as_offset
    let opA := if as = 0 then operand0 else operand1
    let opB := if as = 0 then operand1 else operand0
    ⟨words, head ++ opA ++ argument_sep ++ opB⟩
  else
    ⟨1, head ++ second_reg_operand_name instr ++ argument_sep ++ third_reg_operand_name instr⟩

def convert_jump_operand (mnemonic : String) (instr arg : Nat) : Disassembly :=
  let head := mnemonic ++ mnemonic_sep
  if instr &&& operand_addr_loc_mask ≠ 0 then ⟨2, head ++ output_immediate_impl arg⟩
  else ⟨1, head ++ output_short_jump_address instr⟩

def convert_cond_jump_operand (mnemonic : String) (instr arg : Nat) : Disassembly :=
  let m := mnemonic ++ (if instr &&& operand_cond_neg_mask ≠ 0 then "N" else "M")
  let m := m ++ (if instr &&& operand_cond_flag_carry_mask ≠ 0 then "C" else "")
  let m := m ++ (if instr &&& operand_cond_flag_zero_mask ≠ 0 then "Z" else "")
  let head := m ++ mnemonic_sep
  if instr &&& operand_addr_loc_mask ≠ 0 then ⟨2, head ++ output_immediate_impl arg⟩
  else ⟨1, head ++ output_short_cond_jump_address instr⟩

/-- `disassemble_traits<Type>::disassemble`. -/
def disassemble_traits (type : Optype) (mnemonic : String) (instr arg : Nat) : Disassembly :=
  match type with
  | .basic =>
    if check_no_operands instr then ⟨1, mnemonic⟩ else invalid_bits_error instr
  | .op0 =>
    if check_one_operand instr then convert_one_operand mnemonic instr
    else invalid_bits_error instr
  | .op0_op1 =>
    if check_two_operands instr then convert_two_operands mnemonic instr arg
    else invalid_bits_error instr
  | .op0_op1_op2 =>
    if check_three_operands instr then convert_three_operands mnemonic instr arg
    else invalid_bits_error instr
  | .jump =>
    if check_jump instr then convert_jump_operand mnemonic instr arg
    else invalid_bits_error instr
  | .cond_jump =>
    if check_cond_jump instr then convert_cond_jump_operand mnemonic instr arg
    else invalid_bits_error instr

/-- `disassemble_opcode<Code, Profile>`. -/
def disassemble_opcode (level code instr arg : Nat) : Disassembly :=
  let d := instruction_table code
  if instruction_supported code level then disassemble_traits d.type d.mnemonic instr arg
  else invalid_opcode_error instr

/-- `disassemble_instruction<Profile>`: the switch over the opcode field. -/
def disassemble_instruction (level instr arg : Nat) : Disassembly :=
  let code := instr &&& opcode_mask
  if code = 0x01 ∨ code = 0x02 ∨ code = 0x04 ∨ code = 0x10 ∨ code = 0x11 ∨
      code = 0x2a ∨ code = 0x2c ∨ code = 0x3e ∨ code = 0x3f then
    disassemble_opcode level code instr arg
  else invalid_opcode_error instr

/-- `arch::disassemble(instr, arg, level)`. -/
def disassemble (instr arg : Nat) (level : Nat := feature_level_latest) : Disassembly :=
  if level = feature_level_min ∨ level = feature_level_v1 then
    disassemble_instruction level instr arg
  else invalid_level_error level

/-! ## Machine state (src/yarisc/arch/machine_model.hpp, memory.hpp,
debugger.hpp)

The execution core is modelled at the instantiation used by the
repository's own tests (`tests/machine.cpp`): the latest feature level
(v1 profile) with `debug_execution_policy` (a debugger attached, so
`panic` stores the message and sets the sticky panic flag) and the strict
policy switchable by a `Bool`, exactly mirroring
`execution_policy<Profile, Debug, Strict>`. -/

/-- `execute_result`. -/
structure ExecResult where
  keepGoing : Bool := true
  breakpoint : Bool := false
deriving DecidableEq

def halt_result : ExecResult := ⟨false, false⟩

def breakpoint_result : ExecResult := ⟨false, true⟩

/-- `machine_registers`: the eight named registers (`r0..r5`, `sp` = index
6, `ip` = index 7) and the status word. -/
structure MachineRegisters where
  named : List Nat
  status : Nat
deriving DecidableEq

def MachineRegisters.ip (reg : MachineRegisters) : Nat :=
  reg.named.getD 7 0

/-- `registers::set_ip`: the argument is cast to `word_t`. -/
def MachineRegisters.set_ip (reg : MachineRegisters) (w : Nat) : MachineRegisters :=
  { reg with named := reg.named.set 7 (w % 65536) }

/-- Read register `r[i]`. -/
def MachineRegisters.get (reg : MachineRegisters) (i : Nat) : Nat :=
  reg.named.getD i 0

/-- Write register `r[i]`. -/
def MachineRegisters.setr (reg : MachineRegisters) (i v : Nat) : MachineRegisters :=
  { reg with named := reg.named.set i v }

/-- The whole machine: registers, the main-memory byte buffer
(`machine_memory::main`, a size plus little-endian bytes) and the
attached debugger's panic flag and message (`arch::debugger`). -/
structure Machine where
  reg : MachineRegisters
  memSize : Nat
  memBytes : Nat → Nat
  dbgPanic : Bool
  dbgMessage : String

/-- `detail::is_aligned`. -/
def is_aligned (address : Nat) : Bool :=
  address % 2 == 0

/-- `memory::load`: little-endian word at a byte address
(`detail::load_word`). -/
def mem_load (m : Machine) (address : Nat) : Nat :=
  m.memBytes address + 256 * m.memBytes (address + 1)

/-- `memory::store`: little-endian word to a byte address
(`detail::store_word`). -/
def mem_store (m : Machine) (address value : Nat) : Machine :=
  { m with
    memBytes := fun i =>
      if i = address then value % 256
      else if i = address + 1 then value / 256 % 256
      else m.memBytes i }

/-! ## Panics and diagnostics (src/yarisc/arch/detail/execution.hpp,
debugger.cpp) -/

/-- `detail::instruction_error`: the faulting address is
`ip - sizeof(word_t)` in 16-bit arithmetic. -/
def instruction_error (reg : MachineRegisters) (instr : Nat) : String :=
  "Invalid instruction 0x" ++ output_hex instr 4 ++ " at memory location 0x" ++
    output_hex ((reg.ip + 65534) % 65536) 4

/-- `detail::nonzero_error`. -/
def nonzero_error (instr reason : Nat) : String :=
  "Invalid non-zero bits in instruction 0x" ++ output_hex instr 4 ++
    " (reason: " ++ toString reason ++ ")"

/-- `detail::address_error`. -/
def address_error (address : Nat) (access : String) : String :=
  "Invalid " ++ access ++ " access to address 0x" ++ output_hex address 4

/-- The debugger of `debugger.hpp`: panic flag and message. -/
structure Debugger where
  panic : Bool
  message : String
deriving DecidableEq

/-- `store_panic_or_throw` (debugger.cpp): without a debugger the panic is
a fatal error (`throw_panic`, modelled as `Except.error`); with one, the
panic flag is set and the message stored. -/
def store_panic_or_throw (dbg : Option Debugger) (msg : String) : Except String Debugger :=
  match dbg with
  | none => .error msg
  | some _ => .ok ⟨true, msg⟩

/-- `execution_policy::panic` with a debugger attached
(`debug_execution_policy::panic` = `store_panic_or_throw`): stores the
message, sets the panic flag and yields `breakpoint_result`. -/
def policy_panic (m : Machine) (msg : String) : Machine × ExecResult :=
  ({ m with dbgPanic := true, dbgMessage := msg }, breakpoint_result)

/-- `strict_execution_policy::check_address`. -/
def check_address (m : Machine) (address : Nat) : Bool :=
  is_aligned address && decide (address < m.memSize)

/-- `execution_policy::load`: under the strict policy a bad address
panics and leaves `dst` untouched, otherwise the word is loaded.  (The
debug policy's `data_breakpoint` always returns `false`.)  Without the
strict policy the source accesses the raw buffer, which is undefined
outside it; the byte-function memory totalises that case, and no claim
relies on it. -/
def policy_load (strict : Bool) (m : Machine) (address dst : Nat) :
    Machine × Nat × ExecResult :=
  if strict && !check_address m address then
    let p := policy_panic m (address_error address "read")
    (p.1, dst, p.2)
  else
    (m, mem_load m address, {})

/-- `execution_policy::store`. -/
def policy_store (strict : Bool) (m : Machine) (address value : Nat) :
    Machine × ExecResult :=
  if strict && !check_address m address then
    policy_panic m (address_error address "write")
  else
    (mem_store m address value, {})

/-! ## Strict reserved-bits audit (`execution_policy::check`) -/

/-- The clause selection of `execution_policy::check`: for the given
instruction format, the `invalid_instruction_reason` (as its numeric
value) of the first violated audit clause, or `none` when the word
passes.  Mirrors the `switch` branch for branch. -/
def audit_reason (type : Optype) (instr : Nat) : Option Nat :=
  match type with
  | .basic =>
    if instr &&& operand_mask ≠ 0 then some 0 else none
  | .op0 =>
    if instr &&& (operand_op1_mask ||| operand_op2_mask) ≠ 0 then some 1 else none
  | .op0_op1 =>
    if instr &&& operand_sel_mask ≠ 0 then
      if instr &&& operand_as_mask ≠ 0 then some 7
      else if instr &&& operand_loc_mask ≠ 0 ∧ instr &&& operand_st_mask ≠ 0 then some 3
      else none
    else
      if instr &&& operand_op2_mask ≠ 0 then some 2 else none
  | .op0_op1_op2 =>
    if instr &&& operand_imm_invalid_mask = operand_imm_invalid_mask then some 4 else none
  | .jump =>
    if instr &&& operand_addr_loc_mask ≠ 0 ∧ instr &&& operand_addr_mask ≠ 0 then some 6
    else none
  | .cond_jump =>
    if instr &&& operand_addr_loc_mask ≠ 0 ∧ instr &&& operand_cond_addr_mask ≠ 0 then some 6
    else if instr &&& operand_cond_invalid_mask = operand_cond_invalid_mask then some 5
    else none

/-- `execution_policy::check`: with the strict policy enabled, when no
panic is pending, audit the reserved bits and panic with `nonzero_error`
on a violation; otherwise pass the handler's result through. -/
def policy_check (m : Machine) (res : ExecResult) (type : Optype) (instr : Nat) :
    Machine × ExecResult :=
  if !m.dbgPanic then
    match audit_reason type instr with
    | some reason => policy_panic m (nonzero_error instr reason)
    | none => (m, res)
  else
    (m, res)

/-! ## Operand decoding (src/yarisc/arch/detail/execution.hpp) -/

/-- `detail::load_instruction`: read the word at `ip`, advancing `ip` by
one word first; the advanced `ip` is kept even when the strict fetch
panics (in which case the returned word is the unchanged `0x0`). -/
def load_instruction (strict : Bool) (m : Machine) : Machine × Nat × ExecResult :=
  let ip := m.reg.ip
  let m := { m with reg := m.reg.set_ip (ip + 2) }
  policy_load strict m ip 0

/-- `detail::load_short_immediate`: the `st` field, zero-extended. -/
def load_short_immediate (instr : Nat) : Nat :=
  (instr &&& operand_st_mask) >>> operand_st_offset

/-- `detail::load_short_address`. -/
def load_short_address (instr : Nat) : Nat :=
  (instr &&& operand_addr_mask) >>> operand_addr_word_offset

/-- `detail::load_short_cond_address`. -/
def load_short_cond_address (instr : Nat) : Nat :=
  (instr &&& operand_cond_addr_mask) >>> operand_cond_addr_word_offset

/-- Index of `detail::first_operand`. -/
def first_operand_idx (instr : Nat) : Nat :=
  (instr &&& operand_op0_mask) >>> operand_op0_offset

/-- `detail::second_reg_operand` (read). -/
def second_reg_operand (instr : Nat) (reg : MachineRegisters) : Nat :=
  reg.get ((instr &&& operand_op1_mask) >>> operand_op1_offset)

/-- `detail::third_reg_operand` (read). -/
def third_reg_operand (instr : Nat) (reg : MachineRegisters) : Nat :=
  reg.get ((instr &&& operand_op2_mask) >>> operand_op2_offset)

/-- `detail::second_operand`. -/
def second_operand (strict : Bool) (m : Machine) (instr : Nat) :
    Machine × Nat × ExecResult :=
  if instr &&& operand_sel_mask ≠ 0 then
    if instr &&& operand_loc_mask ≠ 0 then load_instruction strict m
    else (m, load_short_immediate instr, {})
  else
    (m, second_reg_operand instr m.reg, {})

/-- `detail::second_third_operands`: returns `(op1, op2)` after the
`as`-selected swap; `op0` is the value of the first operand register read
before the call. -/
def second_third_operands (strict : Bool) (m : Machine) (instr op0 : Nat) :
    Machine × (Nat × Nat) × ExecResult :=
  if instr &&& operand_sel_mask ≠ 0 then
    let step :=
      if instr &&& operand_loc_mask ≠ 0 then
        let li := load_instruction strict m
        (li.1, (li.2.1, second_reg_operand instr li.1.reg), li.2.2)
      else
        (m, (load_short_immediate instr, op0), (⟨true, false⟩ : ExecResult))
    let operands := step.2.1
    let as := (instr &&& operand_as_mask) >>> operand_as_offset
    if as = 0 then (step.1, (operands.1, operands.2), step.2.2)
    else (step.1, (operands.2, operands.1), step.2.2)
  else
    (m, (second_reg_operand instr m.reg, third_reg_operand instr m.reg), {})

/-- `detail::jump_address_operand`. -/
def jump_address_operand (strict : Bool) (m : Machine) (instr : Nat) :
    Machine × Nat × ExecResult :=
  if instr &&& operand_addr_loc_mask ≠ 0 then load_instruction strict m
  else (m, load_short_address instr, {})

/-- `detail::cond_jump_address_operand`. -/
def cond_jump_address_operand (strict : Bool) (m : Machine) (instr : Nat) :
    Machine × Nat × ExecResult :=
  if instr &&& operand_addr_loc_mask ≠ 0 then load_instruction strict m
  else (m, load_short_cond_address instr, {})

/-! ## Instruction handlers (`detail::exec_op<Code>`) -/

/-- `alu_add_op`: the third (carry) argument is ignored. -/
def alu_add_op (op1 op2 _carry : Nat) : Nat :=
  op1 + op2

/-- `alu_add_with_carry_op`. -/
def alu_add_with_carry_op (op1 op2 carry : Nat) : Nat :=
  op1 + op2 + carry

/-- `exec_alu_op<Op>::execute`: double-word sum, zero flag from the low
word, carry flag from bit 16, result written to the first operand
register. -/
def exec_alu_op (f : Nat → Nat → Nat → Nat) (m : Machine) (i0 op1 op2 : Nat) :
    Machine × ExecResult :=
  let result := f op1 op2 (m.reg.status &&& carry_flag)
  let result_word := result % 65536
  let s := (if result_word = 0 then zero_flag else 0) ||| ((result &&& 65536) >>> 16)
  ({ m with reg := { named := m.reg.named.set i0 result_word, status := s } }, {})

/-- `exec_op<opcode::move>`: write the destination and update only the
zero flag (`s & ~zero_flag` = `s &&& 0xfffd`). -/
def exec_op_move (m : Machine) (i0 op1 : Nat) : Machine × ExecResult :=
  let reg := m.reg.setr i0 op1
  let s := (reg.status &&& 0xfffd) ||| (if op1 = 0 then zero_flag else 0)
  ({ m with reg := { reg with status := s } }, {})

/-- `exec_op<opcode::load>`: `policy.load(mem, op1, op0)`. -/
def exec_op_load (strict : Bool) (m : Machine) (i0 op1 : Nat) : Machine × ExecResult :=
  let r := policy_load strict m op1 (m.reg.get i0)
  ({ r.1 with reg := r.1.reg.setr i0 r.2.1 }, r.2.2)

/-- `exec_op<opcode::store>`: `policy.store(mem, op1, op0)`. -/
def exec_op_store (strict : Bool) (m : Machine) (i0 op1 : Nat) : Machine × ExecResult :=
  policy_store strict m op1 (m.reg.get i0)

/-- `exec_op<opcode::jump>`. -/
def exec_op_jump (m : Machine) (address : Nat) : Machine × ExecResult :=
  ({ m with reg := m.reg.set_ip address }, {})

/-- `exec_op<opcode::cond_jump>`: jump when `(status & flags) != 0`
differs from the negate flag. -/
def exec_op_cond_jump (m : Machine) (address flags : Nat) (negate : Bool) :
    Machine × ExecResult :=
  let cond := m.reg.status &&& flags != 0
  if (!cond) != (!negate) then ({ m with reg := m.reg.set_ip address }, {})
  else (m, {})

/-- `exec_op<opcode::noop>`. -/
def exec_op_noop (m : Machine) : Machine × ExecResult :=
  (m, {})

/-- `exec_op<opcode::halt>`. -/
def exec_op_halt (m : Machine) : Machine × ExecResult :=
  (m, halt_result)

/-! ## Format dispatch (`detail::execution_traits<Type>`) -/

def execution_traits_basic (m : Machine)
    (exec : Machine → Machine × ExecResult) : Machine × ExecResult :=
  exec m

def execution_traits_op0_op1 (strict : Bool) (m : Machine) (instr : Nat)
    (exec : Machine → Nat → Nat → Machine × ExecResult) : Machine × ExecResult :=
  let i0 := first_operand_idx instr
  let so := second_operand strict m instr
  if so.2.2.breakpoint then (so.1, so.2.2)
  else exec so.1 i0 so.2.1

def execution_traits_op0_op1_op2 (strict : Bool) (m : Machine) (instr : Nat)
    (exec : Machine → Nat → Nat → Nat → Machine × ExecResult) : Machine × ExecResult :=
  let i0 := first_operand_idx instr
  let op0 := m.reg.get i0
  let st := second_third_operands strict m instr op0
  if st.2.2.breakpoint then (st.1, st.2.2)
  else exec st.1 i0 st.2.1.1 st.2.1.2

def execution_traits_jump (strict : Bool) (m : Machine) (instr : Nat)
    (exec : Machine → Nat → Machine × ExecResult) : Machine × ExecResult :=
  let ja := jump_address_operand strict m instr
  if ja.2.2.breakpoint then (ja.1, ja.2.2)
  else exec ja.1 ja.2.1

def execution_traits_cond_jump (strict : Bool) (m : Machine) (instr : Nat)
    (exec : Machine → Nat → Nat → Bool → Machine × ExecResult) : Machine × ExecResult :=
  let ja := cond_jump_address_operand strict m instr
  if ja.2.2.breakpoint then (ja.1, ja.2.2)
  else
    let flags := (instr &&& operand_cond_flag_mask) >>> operand_cond_flag_offset
    let negate := instr &&& operand_cond_neg_mask ≠ 0
    exec ja.1 ja.2.1 flags negate

/-! ## `detail::execute_instruction` at the v1 (latest) profile with a
debugger attached -/

/-- The opcode `switch` of `detail::execute_instruction`: dispatch on the
opcode field (all nine catalogued opcodes are supported at the v1
profile; anything else panics with `instruction_error`). -/
def execute_switch (strict : Bool) (m1 : Machine) (instr : Nat) :
    Machine × ExecResult × Optype :=
  let code := instr &&& opcode_mask
  if code = 0x01 then
    let r := execution_traits_op0_op1 strict m1 instr exec_op_move
    (r.1, r.2, .op0_op1)
  else if code = 0x02 then
    let r := execution_traits_op0_op1 strict m1 instr (exec_op_load strict)
    (r.1, r.2, .op0_op1)
  else if code = 0x04 then
    let r := execution_traits_op0_op1 strict m1 instr (exec_op_store strict)
    (r.1, r.2, .op0_op1)
  else if code = 0x10 then
    let r := execution_traits_op0_op1_op2 strict m1 instr (exec_alu_op alu_add_op)
    (r.1, r.2, .op0_op1_op2)
  else if code = 0x11 then
    let r := execution_traits_op0_op1_op2 strict m1 instr (exec_alu_op alu_add_with_carry_op)
    (r.1, r.2, .op0_op1_op2)
  else if code = 0x2a then
    let r := execution_traits_jump strict m1 instr exec_op_jump
    (r.1, r.2, .jump)
  else if code = 0x2c then
    let r := execution_traits_cond_jump strict m1 instr exec_op_cond_jump
    (r.1, r.2, .cond_jump)
  else if code = 0x3e then
    let r := execution_traits_basic m1 exec_op_noop
    (r.1, r.2, .basic)
  else if code = 0x3f then
    let r := execution_traits_basic m1 exec_op_halt
    (r.1, r.2, .basic)
  else
    let p := policy_panic m1 (instruction_error m1.reg instr)
    (p.1, p.2, .basic)

/-- One fetch–decode–execute step (`detail::execute_instruction`): fetch
the word at `ip` (advancing `ip`), dispatch on the opcode field, run the
handler, and finally run the strict reserved-bits audit on the
instruction word.  The initial code-breakpoint probe is omitted because
`debug_execution_policy::breakpoint` constantly returns `false`. -/
def execute_instruction (strict : Bool) (m : Machine) : Machine × ExecResult :=
  let li := load_instruction strict m
  let m1 := li.1
  let instr := li.2.1
  if li.2.2.breakpoint then (m1, li.2.2)
  else
    let step := execute_switch strict m1 instr
    if strict then policy_check step.1 step.2.1 step.2.2 instr
    else (step.1, step.2.1)

/-- Whether the opcode value is one of the nine handled by the dispatch
switch (all of them are supported at the v1 profile). -/
def supported_opcode (code : Nat) : Bool :=
  code == 0x01 || code == 0x02 || code == 0x04 || code == 0x10 || code == 0x11 ||
    code == 0x2a || code == 0x2c || code == 0x3e || code == 0x3f

/-! ## Claim-side specification of the reserved-bits audit

`claimed_audit_reason` re-states, from the words of the specification's
audit description, which reason code each instruction word must be
rejected with (`none` = accepted).  Single named flags are read with
`Nat.testBit` at the bit positions the spec's layout gives them
(`sel` = 15, `loc`/`cneg` = 14, `as` = 13, `aloc` = 15), and multi-bit
fields are extracted by shift and modulus (`op1` = bits 11..9,
`op2` = bits 14..12, `st` = bits 12..9, `addr` = bits 14..6,
`caddr` = bits 13..9).  Where two clauses of the same format can be
violated at once the spec fixes no order; the tie is broken as the code
does (`as` before `st`, address bits before the reserved condition
bit). -/
def claimed_audit_reason (type : Optype) (instr : Nat) : Option Nat :=
  match type with
  | .basic =>
    if instr >>> 6 ≠ 0 then some 0 else none
  | .op0 =>
    if (instr >>> 9) % 8 ≠ 0 ∨ (instr >>> 12) % 8 ≠ 0 then some 1 else none
  | .op0_op1 =>
    if instr.testBit 15 then
      if instr.testBit 13 then some 7
      else if instr.testBit 14 ∧ (instr >>> 9) % 16 ≠ 0 then some 3
      else none
    else
      if (instr >>> 12) % 8 ≠ 0 then some 2 else none
  | .op0_op1_op2 =>
    if instr.testBit 15 ∧ instr.testBit 14 ∧ instr.testBit 12 then some 4 else none
  | .jump =>
    if instr.testBit 15 ∧ (instr >>> 6) % 512 ≠ 0 then some 6 else none
  | .cond_jump =>
    if instr.testBit 15 ∧ (instr >>> 9) % 32 ≠ 0 then some 6
    else if instr.testBit 8 then some 5
    else none

/-- The legal-encoding predicate of the disassembler for each
instruction format (the `check_*` functions of assembly.cpp). -/
def encoding_check (type : Optype) (instr : Nat) : Bool :=
  match type with
  | .basic => check_no_operands instr
  | .op0 => check_one_operand instr
  | .op0_op1 => check_two_operands instr
  | .op0_op1_op2 => check_three_operands instr
  | .jump => check_jump instr
  | .cond_jump => check_cond_jump instr

/-! # Theorems -/

/-! ## Bitwise toolkit -/

theorem or_and_right (a b m : Nat) : (a ||| b) &&& m = (a &&& m) ||| (b &&& m) := by
  apply Nat.eq_of_testBit_eq
  intro i
  simp [Nat.testBit_and, Nat.testBit_or, Bool.and_or_distrib_right]

theorem or_eq_zero (a b : Nat) : a ||| b = 0 ↔ a = 0 ∧ b = 0 := by
  constructor
  · intro h
    constructor
    · apply Nat.eq_of_testBit_eq
      intro i
      have := congrArg (fun x => Nat.testBit x i) h
      simp [Nat.testBit_or] at this
      simp [this.1]
    · apply Nat.eq_of_testBit_eq
      intro i
      have := congrArg (fun x => Nat.testBit x i) h
      simp [Nat.testBit_or] at this
      simp [this.2]
  · rintro ⟨rfl, rfl⟩
    rfl

theorem masked_and (x m1 m2 : Nat) (h : m1 &&& m2 = 0) : (x &&& m1) &&& m2 = 0 := by
  rw [Nat.land_assoc, h, Nat.and_zero]

theorem small_and (c m : Nat) (hc : c < 64) (h : (63 : Nat) &&& m = 0) : c &&& m = 0 := by
  have hcm : c &&& 63 = c := by
    have h63 : (63 : Nat) = 2 ^ 6 - 1 := by norm_num
    rw [h63, Nat.and_pow_two_sub_one_eq_mod, Nat.mod_eq_of_lt (by omega)]
  calc c &&& m = (c &&& 63) &&& m := by rw [hcm]
    _ = 0 := masked_and c 63 m h

theorem and_two_pow_ne (w k : Nat) : w &&& 2 ^ k ≠ 0 ↔ w.testBit k := by
  rw [Nat.and_two_pow]
  cases h : w.testBit k <;> simp [h, Nat.pos_iff_ne_zero, Nat.pos_pow_of_pos]

theorem field_mask (w a b : Nat) :
    w &&& ((2 ^ b - 1) <<< a) = ((w >>> a) % 2 ^ b) <<< a := by
  apply Nat.eq_of_testBit_eq
  intro i
  simp only [Nat.testBit_and, Nat.testBit_shiftLeft, Nat.testBit_mod_two_pow,
    Nat.testBit_shiftRight, Nat.testBit_two_pow_sub_one]
  by_cases hai : a ≤ i
  · have : a + (i - a) = i := by omega
    simp [hai, this]
    by_cases hib : i - a < b
    · simp [hib, Bool.and_comm]
    · simp [hib]
  · simp [hai]

theorem shiftLeft_eq_zero (x a : Nat) : x <<< a = 0 ↔ x = 0 := by
  rw [Nat.shiftLeft_eq]
  constructor
  · intro h
    rcases Nat.mul_eq_zero.mp h with h | h
    · exact h
    · exact absurd h (Nat.pos_iff_ne_zero.mp (Nat.pos_pow_of_pos a (by norm_num)))
  · intro h
    simp [h]

theorem field_ne (w a b : Nat) :
    w &&& ((2 ^ b - 1) <<< a) ≠ 0 ↔ (w >>> a) % 2 ^ b ≠ 0 := by
  rw [field_mask, not_iff_not]
  exact shiftLeft_eq_zero _ a

theorem or_and_eq_zero {a b m : Nat} (h1 : a &&& m = 0) (h2 : b &&& m = 0) :
    (a ||| b) &&& m = 0 := by
  rw [or_and_right, h1, h2]
  rfl

theorem or_ne_zero_right {a b : Nat} (h : b ≠ 0) : a ||| b ≠ 0 := by
  intro hc
  exact h ((or_eq_zero a b).mp hc).2

theorem and_d000_eq (w : Nat) :
    (w &&& 0xd000 = 0xd000) ↔ (w.testBit 15 ∧ w.testBit 14 ∧ w.testBit 12) := by
  have h : (0xd000 : Nat) = 2 ^ 15 ||| (2 ^ 14 ||| 2 ^ 12) := by decide
  rw [h, Nat.and_or_distrib_left, Nat.and_or_distrib_left,
    Nat.and_two_pow, Nat.and_two_pow, Nat.and_two_pow]
  cases h15 : w.testBit 15 <;> cases h14 : w.testBit 14 <;> cases h12 : w.testBit 12 <;>
    simp

theorem and_100_eq (w : Nat) : (w &&& 0x100 = 0x100) ↔ w.testBit 8 := by
  have h : (0x100 : Nat) = 2 ^ 8 := by decide
  rw [h, Nat.and_two_pow]
  cases h8 : w.testBit 8 <;> simp

theorem sel_bit_ne (w : Nat) : w &&& operand_sel_mask ≠ 0 ↔ w.testBit 15 := by
  have h : operand_sel_mask = 2 ^ 15 := by decide
  rw [h]
  exact and_two_pow_ne w 15

theorem loc_bit_ne (w : Nat) : w &&& operand_loc_mask ≠ 0 ↔ w.testBit 14 := by
  have h : operand_loc_mask = 2 ^ 14 := by decide
  rw [h]
  exact and_two_pow_ne w 14

theorem as_bit_ne (w : Nat) : w &&& operand_as_mask ≠ 0 ↔ w.testBit 13 := by
  have h : operand_as_mask = 2 ^ 13 := by decide
  rw [h]
  exact and_two_pow_ne w 13

theorem st_field_ne (w : Nat) : w &&& operand_st_mask ≠ 0 ↔ (w >>> 9) % 16 ≠ 0 := by
  have h : operand_st_mask = (2 ^ 4 - 1) <<< 9 := by decide
  rw [h, field_ne]
  norm_num

theorem op1_field_ne (w : Nat) : w &&& operand_op1_mask ≠ 0 ↔ (w >>> 9) % 8 ≠ 0 := by
  have h : operand_op1_mask = (2 ^ 3 - 1) <<< 9 := by decide
  rw [h, field_ne]
  norm_num

theorem op2_field_ne (w : Nat) : w &&& operand_op2_mask ≠ 0 ↔ (w >>> 12) % 8 ≠ 0 := by
  have h : operand_op2_mask = (2 ^ 3 - 1) <<< 12 := by decide
  rw [h, field_ne]
  norm_num

theorem addr_field_ne (w : Nat) : w &&& operand_addr_mask ≠ 0 ↔ (w >>> 6) % 512 ≠ 0 := by
  have h : operand_addr_mask = (2 ^ 9 - 1) <<< 6 := by decide
  rw [h, field_ne]
  norm_num

theorem cond_addr_field_ne (w : Nat) :
    w &&& operand_cond_addr_mask ≠ 0 ↔ (w >>> 9) % 32 ≠ 0 := by
  have h : operand_cond_addr_mask = (2 ^ 5 - 1) <<< 9 := by decide
  rw [h, field_ne]
  norm_num

theorem operand_field_ne (w : Nat) (hw : w < 65536) :
    w &&& operand_mask ≠ 0 ↔ w >>> 6 ≠ 0 := by
  have h : operand_mask = (2 ^ 10 - 1) <<< 6 := by decide
  rw [h, field_ne]
  have hlt : w >>> 6 < 2 ^ 10 := by
    rw [Nat.shiftRight_eq_div_pow]
    omega
  rw [Nat.mod_eq_of_lt hlt]

theorem aloc_bit_ne (w : Nat) : w &&& operand_addr_loc_mask ≠ 0 ↔ w.testBit 15 := by
  have h : operand_addr_loc_mask = 2 ^ 15 := by decide
  rw [h]
  exact and_two_pow_ne w 15

theorem op1_op2_field_ne (w : Nat) :
    w &&& (operand_op1_mask ||| operand_op2_mask) ≠ 0 ↔
      (w >>> 9) % 8 ≠ 0 ∨ (w >>> 12) % 8 ≠ 0 := by
  rw [Nat.and_or_distrib_left, ne_eq, or_eq_zero, not_and_or, ← ne_eq, ← ne_eq,
    op1_field_ne, op2_field_ne]

/-- The strict audit clause selection agrees, word for word, with the
clauses as the specification states them. -/
theorem audit_matches_claimed (w : Nat) (hw : w < 65536) (ot : Optype) :
    audit_reason ot w = claimed_audit_reason ot w := by
  cases ot with
  | basic =>
    simp only [audit_reason, claimed_audit_reason, operand_field_ne w hw]
  | op0 =>
    simp only [audit_reason, claimed_audit_reason, op1_op2_field_ne w]
  | op0_op1 =>
    simp only [audit_reason, claimed_audit_reason, sel_bit_ne, as_bit_ne, loc_bit_ne,
      st_field_ne, op2_field_ne]
  | op0_op1_op2 =>
    simp only [audit_reason, claimed_audit_reason]
    have h : operand_imm_invalid_mask = 0xd000 := by decide
    rw [h]
    simp only [and_d000_eq]
  | jump =>
    simp only [audit_reason, claimed_audit_reason, aloc_bit_ne, addr_field_ne]
  | cond_jump =>
    simp only [audit_reason, claimed_audit_reason, aloc_bit_ne, cond_addr_field_ne]
    have hc : operand_cond_invalid_mask = 0x100 := by decide
    rw [hc]
    simp only [and_100_eq]

theorem testBit_false_of_and_zero {w k : Nat} (h : w &&& 2 ^ k = 0) :
    w.testBit k = false := by
  cases hb : w.testBit k
  · rfl
  · exact absurd h (by simpa [hb] using (and_two_pow_ne w k).mpr (by rw [hb]))

/-- The strict audit accepts a word exactly when the disassembler's
encoding check for the same instruction format passes. -/
theorem audit_accept_iff_check (ot : Optype) (w : Nat) :
    audit_reason ot w = none ↔ encoding_check ot w = true := by
  cases ot with
  | basic =>
    by_cases h : w &&& operand_mask = 0 <;>
      simp [audit_reason, encoding_check, check_no_operands, h]
  | op0 =>
    by_cases h : w &&& (operand_op1_mask ||| operand_op2_mask) = 0 <;>
      simp [audit_reason, encoding_check, check_one_operand, h]
  | op0_op1 =>
    simp only [audit_reason, encoding_check, check_two_operands]
    by_cases hsel : w &&& operand_sel_mask ≠ 0
    · simp only [if_pos hsel]
      by_cases has : w &&& operand_as_mask = 0
      · by_cases hl : w &&& operand_loc_mask = 0 <;>
          by_cases hst : w &&& operand_st_mask = 0 <;>
            simp [has, hl, hst]
      · simp [has]
    · simp only [if_neg hsel]
      by_cases h2 : w &&& operand_op2_mask = 0 <;> simp [h2]
  | op0_op1_op2 =>
    by_cases h : w &&& operand_imm_invalid_mask = operand_imm_invalid_mask <;>
      simp [audit_reason, encoding_check, check_three_operands, h]
  | jump =>
    by_cases hl : w &&& operand_addr_loc_mask = 0 <;>
      by_cases ha : w &&& operand_addr_mask = 0 <;>
        simp [audit_reason, encoding_check, check_jump, hl, ha]
  | cond_jump =>
    by_cases hl : w &&& operand_addr_loc_mask = 0 <;>
      by_cases ha : w &&& operand_cond_addr_mask = 0 <;>
        by_cases hb : w &&& operand_cond_invalid_mask = operand_cond_invalid_mask <;>
          simp [audit_reason, encoding_check, check_cond_jump, hl, ha, hb]

theorem and_assemble {c X m : Nat} (hc : c < 64) (h63 : (63 : Nat) &&& m = 0)
    (hX : X &&& m = 0) : (c ||| X) &&& m = 0 :=
  or_and_eq_zero (small_and c m hc h63) hX

theorem or3_and_ne {c x k : Nat} (m : Nat) (hk : k &&& m ≠ 0) :
    (c ||| (x ||| k)) &&& m ≠ 0 := by
  rw [or_and_right, or_and_right]
  exact or_ne_zero_right (or_ne_zero_right hk)

theorem and_mask_ne_of_bit_zero {w M : Nat} (k : Nat) (hw : w &&& 2 ^ k = 0)
    (hM : M &&& 2 ^ k ≠ 0) : w &&& M ≠ M := by
  intro he
  apply hM
  calc M &&& 2 ^ k = (w &&& M) &&& 2 ^ k := by rw [he]
    _ = (w &&& 2 ^ k) &&& M := by
        rw [Nat.land_assoc, Nat.land_comm M _, ← Nat.land_assoc]
    _ = 0 := by rw [hw, Nat.zero_and]

theorem audit_ok_basic (c : Nat) (hc : c < 64) :
    audit_reason .basic (assemble_basic c) = none := by
  have h : assemble_basic c &&& operand_mask = 0 := small_and c _ hc (by decide)
  simp [audit_reason, h]

theorem audit_ok_two_reg (c a b : Nat) (hc : c < 64) :
    audit_reason .op0_op1 (assemble_two_reg c a b) = none := by
  have hsel : assemble_two_reg c a b &&& operand_sel_mask = 0 :=
    and_assemble hc (by decide)
      (or_and_eq_zero (masked_and _ _ _ (by decide)) (masked_and _ _ _ (by decide)))
  have hop2 : assemble_two_reg c a b &&& operand_op2_mask = 0 :=
    and_assemble hc (by decide)
      (or_and_eq_zero (masked_and _ _ _ (by decide)) (masked_and _ _ _ (by decide)))
  simp [audit_reason, hsel, hop2]

theorem audit_ok_two_imm (c a : Nat) (hc : c < 64) :
    audit_reason .op0_op1 (assemble_two_imm c a) = none := by
  have hsel : assemble_two_imm c a &&& operand_sel_mask ≠ 0 :=
    or3_and_ne _ (by decide)
  have has : assemble_two_imm c a &&& operand_as_mask = 0 :=
    and_assemble hc (by decide)
      (or_and_eq_zero (masked_and _ _ _ (by decide)) (by decide))
  have hst : assemble_two_imm c a &&& operand_st_mask = 0 :=
    and_assemble hc (by decide)
      (or_and_eq_zero (masked_and _ _ _ (by decide)) (by decide))
  simp [audit_reason, hsel, has, hst]

theorem audit_ok_two_short (c a i : Nat) (hc : c < 64) :
    audit_reason .op0_op1 (assemble_two_short c a i) = none := by
  have hsel : assemble_two_short c a i &&& operand_sel_mask ≠ 0 :=
    or3_and_ne _ (by decide)
  have has : assemble_two_short c a i &&& operand_as_mask = 0 :=
    and_assemble hc (by decide)
      (or_and_eq_zero
        (or_and_eq_zero (masked_and _ _ _ (by decide)) (masked_and _ _ _ (by decide)))
        (by decide))
  have hloc : assemble_two_short c a i &&& operand_loc_mask = 0 :=
    and_assemble hc (by decide)
      (or_and_eq_zero
        (or_and_eq_zero (masked_and _ _ _ (by decide)) (masked_and _ _ _ (by decide)))
        (by decide))
  simp [audit_reason, hsel, has, hloc]

theorem audit_ok_three_reg (c a b d : Nat) (hc : c < 64) :
    audit_reason .op0_op1_op2 (assemble_three_reg c a b d) = none := by
  have hsel : assemble_three_reg c a b d &&& 2 ^ 15 = 0 :=
    and_assemble hc (by decide)
      (or_and_eq_zero
        (or_and_eq_zero (masked_and _ _ _ (by decide)) (masked_and _ _ _ (by decide)))
        (masked_and _ _ _ (by decide)))
  have h := and_mask_ne_of_bit_zero 15 hsel
    (show operand_imm_invalid_mask &&& 2 ^ 15 ≠ 0 by decide)
  simp [audit_reason, h]

theorem audit_ok_three_imm_reg (c a d : Nat) (hc : c < 64) :
    audit_reason .op0_op1_op2 (assemble_three_imm_reg c a d) = none := by
  have hbit : assemble_three_imm_reg c a d &&& 2 ^ 12 = 0 :=
    and_assemble hc (by decide)
      (or_and_eq_zero
        (or_and_eq_zero (masked_and _ _ _ (by decide)) (masked_and _ _ _ (by decide)))
        (by decide))
  have h := and_mask_ne_of_bit_zero 12 hbit
    (show operand_imm_invalid_mask &&& 2 ^ 12 ≠ 0 by decide)
  simp [audit_reason, h]

theorem audit_ok_three_reg_imm (c a b : Nat) (hc : c < 64) :
    audit_reason .op0_op1_op2 (assemble_three_reg_imm c a b) = none := by
  have hbit : assemble_three_reg_imm c a b &&& 2 ^ 12 = 0 :=
    and_assemble hc (by decide)
      (or_and_eq_zero
        (or_and_eq_zero
          (or_and_eq_zero (masked_and _ _ _ (by decide)) (masked_and _ _ _ (by decide)))
          (by decide))
        (by decide))
  have h := and_mask_ne_of_bit_zero 12 hbit
    (show operand_imm_invalid_mask &&& 2 ^ 12 ≠ 0 by decide)
  simp [audit_reason, h]

theorem audit_ok_three_short_acc (c a i : Nat) (hc : c < 64) :
    audit_reason .op0_op1_op2 (assemble_three_short_acc c a i) = none := by
  have hbit : assemble_three_short_acc c a i &&& 2 ^ 14 = 0 :=
    and_assemble hc (by decide)
      (or_and_eq_zero
        (or_and_eq_zero (masked_and _ _ _ (by decide)) (masked_and _ _ _ (by decide)))
        (by decide))
  have h := and_mask_ne_of_bit_zero 14 hbit
    (show operand_imm_invalid_mask &&& 2 ^ 14 ≠ 0 by decide)
  simp [audit_reason, h]

theorem audit_ok_three_acc_short (c a i : Nat) (hc : c < 64) :
    audit_reason .op0_op1_op2 (assemble_three_acc_short c a i) = none := by
  have hbit : assemble_three_acc_short c a i &&& 2 ^ 14 = 0 :=
    and_assemble hc (by decide)
      (or_and_eq_zero
        (or_and_eq_zero
          (or_and_eq_zero (masked_and _ _ _ (by decide)) (masked_and _ _ _ (by decide)))
          (by decide))
        (by decide))
  have h := and_mask_ne_of_bit_zero 14 hbit
    (show operand_imm_invalid_mask &&& 2 ^ 14 ≠ 0 by decide)
  simp [audit_reason, h]

theorem audit_ok_jump_imm (c : Nat) (hc : c < 64) :
    audit_reason .jump (assemble_jump_imm c) = none := by
  have haddr : assemble_jump_imm c &&& operand_addr_mask = 0 :=
    or_and_eq_zero (small_and c _ hc (by decide)) (by decide)
  simp [audit_reason, haddr]

theorem audit_ok_jump_short (c address : Nat) (hc : c < 64) :
    audit_reason .jump (assemble_jump_short c address) = none := by
  have haloc : assemble_jump_short c address &&& operand_addr_loc_mask = 0 :=
    or_and_eq_zero (small_and c _ hc (by decide)) (masked_and _ _ _ (by decide))
  simp [audit_reason, haloc]

theorem audit_ok_cond_jump_imm (c cond : Nat) (hc : c < 64) :
    audit_reason .cond_jump (assemble_cond_jump_imm c cond) = none := by
  have hcaddr : assemble_cond_jump_imm c cond &&& operand_cond_addr_mask = 0 :=
    and_assemble hc (by decide)
      (or_and_eq_zero (masked_and _ _ _ (by decide)) (by decide))
  have hbit : assemble_cond_jump_imm c cond &&& 2 ^ 8 = 0 :=
    and_assemble hc (by decide)
      (or_and_eq_zero (masked_and _ _ _ (by decide)) (by decide))
  have h8 := and_mask_ne_of_bit_zero 8 hbit
    (show operand_cond_invalid_mask &&& 2 ^ 8 ≠ 0 by decide)
  simp [audit_reason, hcaddr, h8]

theorem audit_ok_cond_jump_short (c cond address : Nat) (hc : c < 64) :
    audit_reason .cond_jump (assemble_cond_jump_short c cond address) = none := by
  have haloc : assemble_cond_jump_short c cond address &&& operand_addr_loc_mask = 0 :=
    and_assemble hc (by decide)
      (or_and_eq_zero (masked_and _ _ _ (by decide)) (masked_and _ _ _ (by decide)))
  have hbit : assemble_cond_jump_short c cond address &&& 2 ^ 8 = 0 :=
    and_assemble hc (by decide)
      (or_and_eq_zero (masked_and _ _ _ (by decide)) (masked_and _ _ _ (by decide)))
  have h8 := and_mask_ne_of_bit_zero 8 hbit
    (show operand_cond_invalid_mask &&& 2 ^ 8 ≠ 0 by decide)
  simp [audit_reason, haloc, h8]

/-- C8: The strict-mode reserved-bits audit accepts every legal-encoding
instruction word — a word is accepted exactly when the disassembler's
encoding check for its format passes, and in particular every word
produced by the assembler's operand builders is accepted — and for every
16-bit word of a supported format the audit's verdict, including the
numeric reason code 0..7 of the violated clause, agrees with the clause
list as the specification states it (`claimed_audit_reason`). -/
theorem c8_strict_audit :
    (∀ w : Nat, w < 65536 → ∀ ot : Optype, audit_reason ot w = claimed_audit_reason ot w) ∧
    (∀ ot : Optype, ∀ w : Nat, audit_reason ot w = none ↔ encoding_check ot w = true) ∧
    (∀ c : Nat, c < 64 → ∀ a b d i cond address : Nat,
      audit_reason .basic (assemble_basic c) = none ∧
      audit_reason .op0_op1 (assemble_two_reg c a b) = none ∧
      audit_reason .op0_op1 (assemble_two_imm c a) = none ∧
      audit_reason .op0_op1 (assemble_two_short c a i) = none ∧
      audit_reason .op0_op1_op2 (assemble_three_reg c a b d) = none ∧
      audit_reason .op0_op1_op2 (assemble_three_imm_reg c a d) = none ∧
      audit_reason .op0_op1_op2 (assemble_three_reg_imm c a b) = none ∧
      audit_reason .op0_op1_op2 (assemble_three_short_acc c a i) = none ∧
      audit_reason .op0_op1_op2 (assemble_three_acc_short c a i) = none ∧
      audit_reason .jump (assemble_jump_imm c) = none ∧
      audit_reason .jump (assemble_jump_short c address) = none ∧
      audit_reason .cond_jump (assemble_cond_jump_imm c cond) = none ∧
      audit_reason .cond_jump (assemble_cond_jump_short c cond address) = none) := by
  refine ⟨audit_matches_claimed, audit_accept_iff_check, ?_⟩
  intro c hc a b d i cond address
  exact ⟨audit_ok_basic c hc, audit_ok_two_reg c a b hc, audit_ok_two_imm c a hc,
    audit_ok_two_short c a i hc, audit_ok_three_reg c a b d hc,
    audit_ok_three_imm_reg c a d hc, audit_ok_three_reg_imm c a b hc,
    audit_ok_three_short_acc c a i hc, audit_ok_three_acc_short c a i hc,
    audit_ok_jump_imm c hc, audit_ok_jump_short c address hc,
    audit_ok_cond_jump_imm c cond hc, audit_ok_cond_jump_short c cond address hc⟩

/-- Witness for C8 at concrete inputs: the audit verdict on the word
`0xaa81` (a MOV with the reserved `as` flag set, reason 7) matches the
claimed clause, and the assembled `LDR r3, <short immediate 0xe>` and
`JMC <short address 0x1a>` words are accepted. -/
theorem c8_strict_audit_witness :
    audit_reason .op0_op1 0xaa81 = claimed_audit_reason .op0_op1 0xaa81 ∧
    (audit_reason .jump 0x7f2a = none ↔ encoding_check .jump 0x7f2a = true) ∧
    audit_reason .op0_op1 (assemble_two_short 0x02 3 0xe) = none ∧
    audit_reason .cond_jump (assemble_cond_jump_short 0x2c jump_condition_jc 0x1a) = none :=
  ⟨c8_strict_audit.1 0xaa81 (by decide) .op0_op1,
    c8_strict_audit.2.1 .jump 0x7f2a,
    (c8_strict_audit.2.2 0x02 (by decide) 3 0 0 0xe jump_condition_jc 0x1a).2.2.2.1,
    (c8_strict_audit.2.2 0x2c (by decide) 3 0 0 0xe jump_condition_jc 0x1a).2.2.2.2.2.2.2.2.2.2.2.2⟩

/-! ## C6 — ALU semantics -/

theorem carry_extract (x : Nat) (h : x < 131072) : (x &&& 65536) >>> 16 = x / 65536 := by
  have h2 : (65536 : Nat) = 2 ^ 16 := by norm_num
  rw [h2, Nat.and_two_pow, Nat.testBit_to_div_mod, Nat.shiftRight_eq_div_pow]
  have hq : x / 2 ^ 16 = 0 ∨ x / 2 ^ 16 = 1 := by omega
  rcases hq with hq | hq <;> rw [hq] <;> simp

theorem status_or (z : Prop) [Decidable z] (q : Nat) (hq : q ≤ 1) :
    ((if z then zero_flag else 0) ||| q) = (if z then zero_flag else 0) + q := by
  by_cases h : z <;> simp only [if_pos, if_neg, h, zero_flag] <;> interval_cases q <;> rfl

/-- C6: For all 16-bit operands, ADD writes `(a + b) mod 2^16` to the
destination register and replaces the status with Z iff the result word
is zero plus C iff `a + b ≥ 2^16`; ADC adds the incoming carry flag
(read from the status register before it is overwritten) and sets
`C = ⌊(a + b + c) / 2^16⌋`. -/
theorem c6_alu_add_adc_semantics (m : Machine) (i0 a b : Nat)
    (ha : a < 65536) (hb : b < 65536) :
    ((exec_alu_op alu_add_op m i0 a b).1.reg.named =
        m.reg.named.set i0 ((a + b) % 65536) ∧
      (exec_alu_op alu_add_op m i0 a b).1.reg.status =
        (if (a + b) % 65536 = 0 then zero_flag else 0) +
          (if 65536 ≤ a + b then 1 else 0) ∧
      (exec_alu_op alu_add_op m i0 a b).1.memBytes = m.memBytes ∧
      (exec_alu_op alu_add_op m i0 a b).2 = ({} : ExecResult)) ∧
    ((exec_alu_op alu_add_with_carry_op m i0 a b).1.reg.named =
        m.reg.named.set i0 ((a + b + (m.reg.status &&& carry_flag)) % 65536) ∧
      (exec_alu_op alu_add_with_carry_op m i0 a b).1.reg.status =
        (if (a + b + (m.reg.status &&& carry_flag)) % 65536 = 0 then zero_flag else 0) +
          (a + b + (m.reg.status &&& carry_flag)) / 65536 ∧
      (exec_alu_op alu_add_with_carry_op m i0 a b).2 = ({} : ExecResult)) := by
  have hcarry : m.reg.status &&& carry_flag ≤ 1 := by
    have := Nat.and_le_right (n := m.reg.status) (m := carry_flag)
    simpa [carry_flag] using this
  refine ⟨⟨?_, ?_, rfl, rfl⟩, ⟨?_, ?_, rfl⟩⟩
  · simp [exec_alu_op, alu_add_op]
  · simp only [exec_alu_op, alu_add_op]
    rw [carry_extract _ (by omega), status_or _ _ (by omega)]
    have hdiv : (a + b) / 65536 = if 65536 ≤ a + b then 1 else 0 := by
      by_cases hab : 65536 ≤ a + b <;> simp [hab] <;> omega
    rw [hdiv]
  · simp [exec_alu_op, alu_add_with_carry_op]
  · simp only [exec_alu_op, alu_add_with_carry_op]
    rw [carry_extract _ (by omega), status_or _ _ (by omega)]

/-- Witness for C6 at the ADD and ADC test vectors of add_test.cpp:
`r1 = 0x094b, r2 = 0x106c` with both flags set, and
`r1 = 0xfffd, r2 = 0x0002` with the carry set. -/
theorem c6_alu_add_adc_semantics_witness :
    ((exec_alu_op alu_add_op
          ⟨⟨[0xfefe, 0x094b, 0x106c, 0, 0, 0, 0x5f, 0x2a], 3⟩, 0, fun _ => 0, false, ""⟩
          0 0x094b 0x106c).1.reg.named =
        ([0xfefe, 0x094b, 0x106c, 0, 0, 0, 0x5f, 0x2a].set 0 ((0x094b + 0x106c) % 65536)) ∧
      (exec_alu_op alu_add_op
          ⟨⟨[0xfefe, 0x094b, 0x106c, 0, 0, 0, 0x5f, 0x2a], 3⟩, 0, fun _ => 0, false, ""⟩
          0 0x094b 0x106c).1.reg.status =
        (if (0x094b + 0x106c) % 65536 = 0 then zero_flag else 0) +
          (if 65536 ≤ 0x094b + 0x106c then 1 else 0) ∧
      (exec_alu_op alu_add_op
          ⟨⟨[0xfefe, 0x094b, 0x106c, 0, 0, 0, 0x5f, 0x2a], 3⟩, 0, fun _ => 0, false, ""⟩
          0 0x094b 0x106c).1.memBytes = (fun _ => 0) ∧
      (exec_alu_op alu_add_op
          ⟨⟨[0xfefe, 0x094b, 0x106c, 0, 0, 0, 0x5f, 0x2a], 3⟩, 0, fun _ => 0, false, ""⟩
          0 0x094b 0x106c).2 = ({} : ExecResult)) ∧
    ((exec_alu_op alu_add_with_carry_op
          ⟨⟨[0xfefe, 0xfffd, 0x0002, 0, 0, 0, 0x5f, 0x2a], 1⟩, 0, fun _ => 0, false, ""⟩
          0 0xfffd 0x0002).1.reg.named =
        ([0xfefe, 0xfffd, 0x0002, 0, 0, 0, 0x5f, 0x2a].set 0 ((0xfffd + 0x0002 + (1 &&& carry_flag)) % 65536)) ∧
      (exec_alu_op alu_add_with_carry_op
          ⟨⟨[0xfefe, 0xfffd, 0x0002, 0, 0, 0, 0x5f, 0x2a], 1⟩, 0, fun _ => 0, false, ""⟩
          0 0xfffd 0x0002).1.reg.status =
        (if (0xfffd + 0x0002 + (1 &&& carry_flag)) % 65536 = 0 then zero_flag else 0) +
          (0xfffd + 0x0002 + (1 &&& carry_flag)) / 65536 ∧
      (exec_alu_op alu_add_with_carry_op
          ⟨⟨[0xfefe, 0xfffd, 0x0002, 0, 0, 0, 0x5f, 0x2a], 1⟩, 0, fun _ => 0, false, ""⟩
          0 0xfffd 0x0002).2 = ({} : ExecResult)) :=
  ⟨(c6_alu_add_adc_semantics _ 0 0x094b 0x106c (by decide) (by decide)).1,
    (c6_alu_add_adc_semantics _ 0 0xfffd 0x0002 (by decide) (by decide)).2⟩

/-! ## C7 — jump semantics -/

/-- C7: The conditional-jump handler transfers control — overwriting `ip`
with the decoded address — exactly when `(status &&& cflag) ≠ 0` XOR
`cneg`, leaving the machine untouched otherwise; the unconditional jump
handler overwrites `ip` for every status value. -/
theorem c7_jump_semantics (m : Machine) (address flags : Nat) (negate : Bool) :
    exec_op_cond_jump m address flags negate =
      (if Xor' (m.reg.status &&& flags ≠ 0) (negate = true) then
        ({ m with reg := m.reg.set_ip address }, ({} : ExecResult))
      else (m, ({} : ExecResult))) ∧
    exec_op_jump m address = ({ m with reg := m.reg.set_ip address }, ({} : ExecResult)) := by
  constructor
  · simp only [exec_op_cond_jump]
    by_cases h : m.reg.status &&& flags = 0
    · cases negate <;> simp [h, Xor']
    · cases negate <;> simp [h, Xor']
  · rfl

/-! ## C9 — strict load/store address checks -/

/-- C9: Under the strict policy a load or store whose address is odd or
not inside the memory buffer panics with the corresponding
`address_error` — with a debugger attached the message is stored, the
panic flag set and the step reported as a breakpoint; without one
(`store_panic_or_throw` with no debugger) a fatal error is raised — and
neither reads nor writes memory (the destination and the byte buffer are
left untouched); an aligned, in-range access performs the little-endian
word access with no error. -/
theorem c9_strict_address_checks (m : Machine) (a dst v : Nat) :
    (¬(a % 2 = 0 ∧ a < m.memSize) →
      policy_load true m a dst =
        ({ m with dbgPanic := true, dbgMessage := address_error a "read" }, dst,
          breakpoint_result) ∧
      policy_store true m a v =
        ({ m with dbgPanic := true, dbgMessage := address_error a "write" },
          breakpoint_result) ∧
      store_panic_or_throw none (address_error a "read") =
        .error (address_error a "read")) ∧
    (a % 2 = 0 ∧ a < m.memSize →
      policy_load true m a dst = (m, mem_load m a, ({} : ExecResult)) ∧
      policy_store true m a v = (mem_store m a v, ({} : ExecResult))) := by
  have hca : check_address m a = true ↔ a % 2 = 0 ∧ a < m.memSize := by
    simp [check_address, is_aligned]
  constructor
  · intro h
    have hcf : check_address m a = false := by
      cases hcc : check_address m a
      · rfl
      · exact absurd (hca.mp hcc) h
    refine ⟨?_, ?_, rfl⟩
    · simp [policy_load, policy_panic, hcf]
    · simp [policy_store, policy_panic, hcf]
  · intro h
    have hct : check_address m a = true := hca.mpr h
    constructor
    · simp [policy_load, hct]
    · simp [policy_store, hct]

/-- Witness for C9: against a 16-byte memory, the odd address 3 and the
out-of-range address 0x20 panic on both access paths while the aligned,
in-range address 2 is accessed normally. -/
theorem c9_strict_address_checks_witness :
    (policy_load true ⟨⟨[0, 0, 0, 0, 0, 0, 0, 0], 0⟩, 16, fun _ => 7, false, ""⟩ 3 0xfefe =
      (⟨⟨[0, 0, 0, 0, 0, 0, 0, 0], 0⟩, 16, fun _ => 7, true, address_error 3 "read"⟩, 0xfefe,
        breakpoint_result) ∧
      policy_store true ⟨⟨[0, 0, 0, 0, 0, 0, 0, 0], 0⟩, 16, fun _ => 7, false, ""⟩ 3 0xabcd =
        (⟨⟨[0, 0, 0, 0, 0, 0, 0, 0], 0⟩, 16, fun _ => 7, true, address_error 3 "write"⟩,
          breakpoint_result) ∧
      store_panic_or_throw none (address_error 3 "read") = .error (address_error 3 "read")) ∧
    (policy_load true ⟨⟨[0, 0, 0, 0, 0, 0, 0, 0], 0⟩, 16, fun _ => 7, false, ""⟩ 0x20 0xfefe =
      (⟨⟨[0, 0, 0, 0, 0, 0, 0, 0], 0⟩, 16, fun _ => 7, true, address_error 0x20 "read"⟩, 0xfefe,
        breakpoint_result) ∧
      policy_store true ⟨⟨[0, 0, 0, 0, 0, 0, 0, 0], 0⟩, 16, fun _ => 7, false, ""⟩ 0x20 0xabcd =
        (⟨⟨[0, 0, 0, 0, 0, 0, 0, 0], 0⟩, 16, fun _ => 7, true, address_error 0x20 "write"⟩,
          breakpoint_result) ∧
      store_panic_or_throw none (address_error 0x20 "read") =
        .error (address_error 0x20 "read")) ∧
    (policy_load true ⟨⟨[0, 0, 0, 0, 0, 0, 0, 0], 0⟩, 16, fun _ => 7, false, ""⟩ 2 0xfefe =
      (⟨⟨[0, 0, 0, 0, 0, 0, 0, 0], 0⟩, 16, fun _ => 7, false, ""⟩,
        mem_load ⟨⟨[0, 0, 0, 0, 0, 0, 0, 0], 0⟩, 16, fun _ => 7, false, ""⟩ 2,
        ({} : ExecResult)) ∧
      policy_store true ⟨⟨[0, 0, 0, 0, 0, 0, 0, 0], 0⟩, 16, fun _ => 7, false, ""⟩ 2 0xabcd =
        (mem_store ⟨⟨[0, 0, 0, 0, 0, 0, 0, 0], 0⟩, 16, fun _ => 7, false, ""⟩ 2 0xabcd,
          ({} : ExecResult))) :=
  ⟨(c9_strict_address_checks _ 3 0xfefe 0xabcd).1 (by decide),
    (c9_strict_address_checks _ 0x20 0xfefe 0xabcd).1 (by decide),
    (c9_strict_address_checks _ 2 0xfefe 0xabcd).2 (by decide)⟩

/-! ## C10 — errors are not atomic -/

theorem load_instruction_advances_ip (strict : Bool) (m : Machine) :
    (load_instruction strict m).1.reg.named = m.reg.named.set 7 ((m.reg.ip + 2) % 65536) ∧
    (load_instruction strict m).1.reg.status = m.reg.status ∧
    (load_instruction strict m).1.memBytes = m.memBytes := by
  simp only [load_instruction, policy_load, MachineRegisters.set_ip]
  split <;> simp [policy_panic]

theorem dispatch_unsupported (strict : Bool) (m1 : Machine) (w : Nat)
    (hunsup : supported_opcode (w &&& opcode_mask) = false) :
    execute_switch strict m1 w =
      ({ m1 with dbgPanic := true, dbgMessage := instruction_error m1.reg w },
        breakpoint_result, Optype.basic) := by
  simp only [supported_opcode, Bool.or_eq_false_iff, beq_eq_false_iff_ne] at hunsup
  obtain ⟨⟨⟨⟨⟨⟨⟨⟨h01, h02⟩, h04⟩, h10⟩, h11⟩, h2a⟩, h2c⟩, h3e⟩, h3f⟩ := hunsup
  simp only [execute_switch, if_neg h01, if_neg h02, if_neg h04, if_neg h10, if_neg h11,
    if_neg h2a, if_neg h2c, if_neg h3e, if_neg h3f, policy_panic]

theorem exec_invalid_opcode (strict : Bool) (m : Machine)
    (hlen : m.reg.named.length = 8) (hip : m.reg.ip < 65536)
    (hal : m.reg.ip % 2 = 0) (hsz : m.reg.ip < m.memSize)
    (hunsup : supported_opcode (mem_load m m.reg.ip &&& opcode_mask) = false) :
    (execute_instruction strict m).1.reg.named =
        m.reg.named.set 7 ((m.reg.ip + 2) % 65536) ∧
    (execute_instruction strict m).1.reg.status = m.reg.status ∧
    (execute_instruction strict m).1.memBytes = m.memBytes ∧
    (execute_instruction strict m).1.dbgPanic = true ∧
    (execute_instruction strict m).1.dbgMessage =
      "Invalid instruction 0x" ++ output_hex (mem_load m m.reg.ip) 4 ++
        " at memory location 0x" ++ output_hex m.reg.ip 4 ∧
    (execute_instruction strict m).2 = breakpoint_result := by
  have hck2 : check_address { m with reg := m.reg.set_ip (m.reg.ip + 2) } m.reg.ip = true := by
    simp [check_address, is_aligned, hal, hsz]
  have hml : mem_load { m with reg := m.reg.set_ip (m.reg.ip + 2) } m.reg.ip =
      mem_load m m.reg.ip := rfl
  have hipr : ({ m with reg := m.reg.set_ip (m.reg.ip + 2) } : Machine).reg.ip =
      (m.reg.ip + 2) % 65536 := by
    simp [MachineRegisters.set_ip, MachineRegisters.ip, List.getD_eq_getElem?_getD,
      List.getElem?_set, hlen]
  have haddr : (((m.reg.ip + 2) % 65536) + 65534) % 65536 = m.reg.ip := by omega
  have hd := dispatch_unsupported strict { m with reg := m.reg.set_ip (m.reg.ip + 2) }
    (mem_load m m.reg.ip) hunsup
  simp only [MachineRegisters.set_ip] at hck2 hml hipr hd
  cases strict <;>
    simp [execute_instruction, load_instruction, policy_load, policy_check,
      instruction_error, hck2, hml, hipr, haddr, hd, breakpoint_result,
      MachineRegisters.set_ip]

/-- C10: Execution errors are not atomic.  `load_instruction` advances
`ip` one word past the fetched word before anything is decoded; a word
whose opcode is not supported then panics while keeping the advanced `ip`
(and register, status and memory state), and the invalid-instruction
diagnostic derives the faulting address as `ip` minus one word; and an
instruction whose handler already wrote registers and flags before the
post-execution strict audit rejects it keeps those writes: executing the
word `0xaa81` (MOV with the reserved `as` bit set) writes `r2 := 5`,
clears the zero flag, and only then panics with audit reason 7, with `ip`
left past the instruction. -/
theorem c10_errors_not_atomic :
    (∀ (strict : Bool) (m : Machine),
      (load_instruction strict m).1.reg.named =
          m.reg.named.set 7 ((m.reg.ip + 2) % 65536) ∧
        (load_instruction strict m).1.reg.status = m.reg.status ∧
        (load_instruction strict m).1.memBytes = m.memBytes) ∧
    (∀ (strict : Bool) (m : Machine), m.reg.named.length = 8 → m.reg.ip < 65536 →
      m.reg.ip % 2 = 0 → m.reg.ip < m.memSize →
      supported_opcode (mem_load m m.reg.ip &&& opcode_mask) = false →
      (execute_instruction strict m).1.reg.named =
          m.reg.named.set 7 ((m.reg.ip + 2) % 65536) ∧
        (execute_instruction strict m).1.reg.status = m.reg.status ∧
        (execute_instruction strict m).1.memBytes = m.memBytes ∧
        (execute_instruction strict m).1.dbgPanic = true ∧
        (execute_instruction strict m).1.dbgMessage =
          "Invalid instruction 0x" ++ output_hex (mem_load m m.reg.ip) 4 ++
            " at memory location 0x" ++ output_hex m.reg.ip 4 ∧
        (execute_instruction strict m).2 = breakpoint_result) ∧
    ((execute_instruction true
        ⟨⟨[0, 0, 0, 0, 0, 0, 0x5f, 0], 3⟩, 0x100,
          fun i => if i = 0 then 0x81 else if i = 1 then 0xaa else 0, false, ""⟩).1.reg.named =
          [0, 0, 5, 0, 0, 0, 0x5f, 2] ∧
      (execute_instruction true
        ⟨⟨[0, 0, 0, 0, 0, 0, 0x5f, 0], 3⟩, 0x100,
          fun i => if i = 0 then 0x81 else if i = 1 then 0xaa else 0, false, ""⟩).1.reg.status = 1 ∧
      (execute_instruction true
        ⟨⟨[0, 0, 0, 0, 0, 0, 0x5f, 0], 3⟩, 0x100,
          fun i => if i = 0 then 0x81 else if i = 1 then 0xaa else 0, false, ""⟩).1.dbgPanic = true ∧
      (execute_instruction true
        ⟨⟨[0, 0, 0, 0, 0, 0, 0x5f, 0], 3⟩, 0x100,
          fun i => if i = 0 then 0x81 else if i = 1 then 0xaa else 0, false, ""⟩).1.dbgMessage =
          nonzero_error 0xaa81 7 ∧
      (execute_instruction true
        ⟨⟨[0, 0, 0, 0, 0, 0, 0x5f, 0], 3⟩, 0x100,
          fun i => if i = 0 then 0x81 else if i = 1 then 0xaa else 0, false, ""⟩).2 =
          breakpoint_result) := by
  refine ⟨load_instruction_advances_ip, exec_invalid_opcode, ?_, ?_, ?_, ?_, ?_⟩ <;> rfl

/-- Witness for C10 at a concrete machine: the all-zero word at address
`0x2a` is an unsupported opcode; the step keeps the advanced `ip` and
reports the faulting address `0x002a`. -/
theorem c10_errors_not_atomic_witness :
    (execute_instruction true
        ⟨⟨[0, 0, 0, 0, 0, 0, 0x5f, 0x2a], 0⟩, 0x100, fun _ => 0, false, ""⟩).1.reg.named =
        [0, 0, 0, 0, 0, 0, 0x5f, 0x2a].set 7 ((0x2a + 2) % 65536) ∧
      (execute_instruction true
        ⟨⟨[0, 0, 0, 0, 0, 0, 0x5f, 0x2a], 0⟩, 0x100, fun _ => 0, false, ""⟩).1.dbgMessage =
        "Invalid instruction 0x" ++ output_hex 0 4 ++ " at memory location 0x" ++
          output_hex 0x2a 4 := by
  have h := c10_errors_not_atomic.2.1 true
    ⟨⟨[0, 0, 0, 0, 0, 0, 0x5f, 0x2a], 0⟩, 0x100, fun _ => 0, false, ""⟩
    (by decide) (by decide) (by decide) (by decide) (by decide)
  exact ⟨h.1, h.2.2.2.2.1⟩

/-! ## C1–C4 — codec and load defects, C5 — halt -/

/-- C1: The claimed assemble/disassemble round trip fails on the code.
The short jump address `0x01fc` is legal (it sign-extends exactly from
its declared sign bit, so the assembler accepts it — and the assembler
does reject a non-sign-extending value such as `0x8`), but
`make_immediate(short_jump_address)` shifts the byte address by
`operand_addr_offset` (6) while the decoder shifts by 5, so the word
`0x7f2a` produced for `JMP 0x01fc` disassembles to `"JMP 0x03f8"` — not
the canonical text `"JMP 0x01fc"` that jump_test.cpp expects. -/
theorem c1_jump_short_roundtrip_fails :
    short_jump_address_ok 0x01fc = true ∧
    checked_immediate_make 0x7 0x8 0x8 =
      .error (invalid_immediate_message 0x8 0xf) ∧
    assemble_jump_short 0x2a 0x01fc = 0x7f2a ∧
    disassemble 0x7f2a 0 = ⟨1, "JMP 0x03f8"⟩ ∧
    ("JMP 0x03f8" : String) ≠ "JMP 0x01fc" := by
  refine ⟨rfl, rfl, rfl, rfl, by decide⟩

/-- C2: The short immediate is not sign-extended by execution.  The value
`0xfffe` is accepted by the assembler (it sign-extends from bit 3 of the
4-bit field), the `st` field of the assembled `LDR r3, 0xfffe` word
`0x9cc2` holds `0xe`, and `load_short_immediate` zero-extends it to
`0x000e`: executing the instruction loads from address `0x000e` — not
`0xfffe` as the spec and load_test.cpp state — and the disassembler
renders the raw field (`"LDR r3, 0xe"`). -/
theorem c2_short_immediate_zero_extended :
    short_immediate_ok 0xfffe = true ∧
    assemble_two_short 0x02 3 0xfffe = 0x9cc2 ∧
    load_short_immediate 0x9cc2 = 0xe ∧
    disassemble 0x9cc2 0 = ⟨1, "LDR r3, 0xe"⟩ ∧
    (execute_instruction true
        ⟨⟨[0, 0, 0, 0xfefe, 0, 0, 0x5f, 0], 0⟩, 0x100,
          fun i => if i = 0 then 0xc2 else if i = 1 then 0x9c else
            if i = 0xe then 0xcd else if i = 0xf then 0xab else 0, false, ""⟩).1.reg.named =
      [0, 0, 0, 0xabcd, 0, 0, 0x5f, 2] ∧
    (0xe : Nat) ≠ 0xfffe := by
  refine ⟨rfl, rfl, rfl, rfl, rfl, by decide⟩

/-- C3: The short conditional-jump address is doubled by the assembler.
`0x1a` is a legal short conditional jump address, but
`make_immediate(short_cond_jump_address)` shifts it by
`operand_cond_addr_offset` (9) while the decoder shifts by 8: executing
the assembled word `0x346c` with the carry flag set puts `0x0034` — not
`0x001a` — into `ip`, and the word disassembles to `"JMC 0x0034"` — not
`"JMC 0x001a"` as the spec and jump_test.cpp state.  (With status `0` the
jump does not fire and `ip` does advance one word, as claimed.) -/
theorem c3_cond_jump_short_address_doubled :
    short_cond_jump_address_ok 0x1a = true ∧
    assemble_cond_jump_short 0x2c jump_condition_jc 0x1a = 0x346c ∧
    (execute_instruction true
        ⟨⟨[0, 0, 0, 0, 0, 0, 0x5f, 0x2a], 1⟩, 0x100,
          fun i => if i = 0x2a then 0x6c else if i = 0x2b then 0x34 else 0,
          false, ""⟩).1.reg.named = [0, 0, 0, 0, 0, 0, 0x5f, 0x34] ∧
    (execute_instruction true
        ⟨⟨[0, 0, 0, 0, 0, 0, 0x5f, 0x2a], 1⟩, 0x100,
          fun i => if i = 0x2a then 0x6c else if i = 0x2b then 0x34 else 0,
          false, ""⟩).2 = ({} : ExecResult) ∧
    (execute_instruction true
        ⟨⟨[0, 0, 0, 0, 0, 0, 0x5f, 0x2a], 0⟩, 0x100,
          fun i => if i = 0x2a then 0x6c else if i = 0x2b then 0x34 else 0,
          false, ""⟩).1.reg.named = [0, 0, 0, 0, 0, 0, 0x5f, 0x2c] ∧
    disassemble 0x346c 0 = ⟨1, "JMC 0x0034"⟩ ∧
    (0x34 : Nat) ≠ 0x1a := by
  refine ⟨rfl, rfl, rfl, rfl, rfl, rfl, by decide⟩

/-- C4: Executing `LDR r3, <long immediate 0xfffe>` against a 65,536-byte
memory whose word at `0xfffe` is `0xabcd` does write `0xabcd` into `r3`,
but the load handler never touches the status register: when the loaded
word is `0x0000`, `r3` becomes `0` while the zero flag stays clear
(status remains `0`), contradicting the claimed `status.Z = 1` (which
load_test.cpp also expects). -/
theorem c4_load_does_not_update_zero_flag :
    (execute_instruction true
        ⟨⟨[0, 0, 0, 0xfefe, 0, 0, 0x5f, 0], 0⟩, 65536,
          fun i => if i = 0 then 0xc2 else if i = 1 then 0xc0 else
            if i = 2 then 0xfe else if i = 3 then 0xff else
              if i = 0xfffe then 0xcd else if i = 0xffff then 0xab else 0,
          false, ""⟩).1.reg.named = [0, 0, 0, 0xabcd, 0, 0, 0x5f, 4] ∧
    (execute_instruction true
        ⟨⟨[0, 0, 0, 0xfefe, 0, 0, 0x5f, 0], 0⟩, 65536,
          fun i => if i = 0 then 0xc2 else if i = 1 then 0xc0 else
            if i = 2 then 0xfe else if i = 3 then 0xff else
              if i = 0xfffe then 0xcd else if i = 0xffff then 0xab else 0,
          false, ""⟩).1.reg.status = 0 ∧
    (execute_instruction true
        ⟨⟨[0, 0, 0, 0xfefe, 0, 0, 0x5f, 0], 0⟩, 65536,
          fun i => if i = 0 then 0xc2 else if i = 1 then 0xc0 else
            if i = 2 then 0xfe else if i = 3 then 0xff else 0,
          false, ""⟩).1.reg.named = [0, 0, 0, 0, 0, 0, 0x5f, 4] ∧
    (execute_instruction true
        ⟨⟨[0, 0, 0, 0xfefe, 0, 0, 0x5f, 0], 0⟩, 65536,
          fun i => if i = 0 then 0xc2 else if i = 1 then 0xc0 else
            if i = 2 then 0xfe else if i = 3 then 0xff else 0,
          false, ""⟩).1.reg.status = 0 ∧
    (0 : Nat) &&& zero_flag = 0 := by
  refine ⟨rfl, rfl, rfl, rfl, rfl⟩

/-- C5 counterexample: the execution core keeps no halted state.  On a
machine whose memory holds `HLT` at address 0 followed by zeros, the
first step returns `(false, false)`, but the claim's second half is false
at this input: the next call is not a no-op returning the same result —
it returns a breakpoint (the zero word panics as an invalid instruction)
and changes the registers (`ip` advances again). -/
theorem c5_halt_not_sticky_counterexample :
    (execute_instruction true
        ⟨⟨[0, 0, 0, 0, 0, 0, 0, 0], 0⟩, 8, fun i => if i = 0 then 0x3f else 0,
          false, ""⟩).2 = halt_result ∧
    ¬((execute_instruction true (execute_instruction true
          ⟨⟨[0, 0, 0, 0, 0, 0, 0, 0], 0⟩, 8, fun i => if i = 0 then 0x3f else 0,
            false, ""⟩).1).2 = halt_result ∧
      (execute_instruction true (execute_instruction true
          ⟨⟨[0, 0, 0, 0, 0, 0, 0, 0], 0⟩, 8, fun i => if i = 0 then 0x3f else 0,
            false, ""⟩).1).1.reg = (execute_instruction true
          ⟨⟨[0, 0, 0, 0, 0, 0, 0, 0], 0⟩, 8, fun i => if i = 0 then 0x3f else 0,
            false, ""⟩).1.reg) := by
  refine ⟨rfl, ?_⟩
  intro h
  exact absurd h.1 (by decide)

/-- C5 amended: executing `HLT` makes the step return `(false, false)`
with `ip` advanced one word and no panic; the core keeps no sticky halted
state, so a subsequent call without reset fetches and executes the word
at the advanced `ip` as a fresh instruction — here the zero word, which
panics as an invalid instruction, advances `ip` again and reports
`(false, true)` with the diagnostic stored. -/
theorem c5_halt_then_step_amended :
    (execute_instruction true
        ⟨⟨[0, 0, 0, 0, 0, 0, 0, 0], 0⟩, 8, fun i => if i = 0 then 0x3f else 0,
          false, ""⟩).2 = halt_result ∧
    (execute_instruction true
        ⟨⟨[0, 0, 0, 0, 0, 0, 0, 0], 0⟩, 8, fun i => if i = 0 then 0x3f else 0,
          false, ""⟩).1.reg = ⟨[0, 0, 0, 0, 0, 0, 0, 2], 0⟩ ∧
    (execute_instruction true
        ⟨⟨[0, 0, 0, 0, 0, 0, 0, 0], 0⟩, 8, fun i => if i = 0 then 0x3f else 0,
          false, ""⟩).1.dbgPanic = false ∧
    (execute_instruction true (execute_instruction true
        ⟨⟨[0, 0, 0, 0, 0, 0, 0, 0], 0⟩, 8, fun i => if i = 0 then 0x3f else 0,
          false, ""⟩).1).2 = breakpoint_result ∧
    (execute_instruction true (execute_instruction true
        ⟨⟨[0, 0, 0, 0, 0, 0, 0, 0], 0⟩, 8, fun i => if i = 0 then 0x3f else 0,
          false, ""⟩).1).1.reg = ⟨[0, 0, 0, 0, 0, 0, 0, 4], 0⟩ ∧
    (execute_instruction true (execute_instruction true
        ⟨⟨[0, 0, 0, 0, 0, 0, 0, 0], 0⟩, 8, fun i => if i = 0 then 0x3f else 0,
          false, ""⟩).1).1.dbgPanic = true ∧
    (execute_instruction true (execute_instruction true
        ⟨⟨[0, 0, 0, 0, 0, 0, 0, 0], 0⟩, 8, fun i => if i = 0 then 0x3f else 0,
          false, ""⟩).1).1.dbgMessage =
      "Invalid instruction 0x0000 at memory location 0x0002" := by
  refine ⟨rfl, rfl, rfl, rfl, rfl, rfl, rfl⟩

end YaRISC
